import Mathlib

/-!
Verification of the CPPython core configuration-resolution library.

The Python source is shallowly embedded:

* `pathlib.Path` values become `EPath`, a flag for absoluteness plus a
  list of name components; `p / q` is `EPath.join`, `p / "s"` is
  `EPath.child`, `Path.parent` is `EPath.parent`, `Path.absolute()` is
  `EPath.absolute` (joining the current working directory when relative).
* The filesystem is a list of existing directories; `mkdir(parents=True,
  exist_ok=True)` is `mkdirParents`, which adds the directory and all its
  ancestors.  Side-effecting resolution functions take and return this
  list explicitly.
* Python exceptions become the `PyError` inductive; a fallible function
  returns `Except PyError α`.
* pydantic `BaseModel` classes become structures; their constructors and
  field validators become explicit `Except`-returning functions where a
  claim depends on validation behaviour.
-/

/-- Python exception classes relevant to the embedded code
(`cppython_core/exceptions.py` defines `ConfigError` and `PluginError`
as direct subclasses of `Exception`; `ValueError` and pydantic's
`ValidationError` are builtin/library classes, none of them subclasses
of one another). -/
inductive PyError where
  | configError (msg : String)
  | valueError (msg : String)
  | pluginError (msg : String)
  | validationError (msg : String)
  deriving DecidableEq, Repr

deriving instance DecidableEq for Except

/-- Embedding of `pathlib.Path`: an absolute flag and the name
components.  No `.` or `..` normalization is modelled; the embedded code
never produces such components. -/
structure EPath where
  abs : Bool
  components : List String
  deriving DecidableEq, Repr

namespace EPath

/-- Embedding of `pathlib`'s `/` operator: joining with an absolute
right-hand side discards the left-hand side, joining with a relative one
concatenates the components. -/
def join (p q : EPath) : EPath :=
  if q.abs then q else ⟨p.abs, p.components ++ q.components⟩

/-- Embedding of `p / "name"` for a single literal component. -/
def child (p : EPath) (s : String) : EPath :=
  ⟨p.abs, p.components ++ [s]⟩

/-- Embedding of `Path.parent`: drop the last component. -/
def parent (p : EPath) : EPath :=
  ⟨p.abs, p.components.dropLast⟩

/-- Embedding of `Path.absolute()`: join onto the current working
directory when the path is relative. -/
def absolute (cwd p : EPath) : EPath :=
  if p.abs then p else cwd.join p

/-- The directory itself together with every ancestor prefix, used to
model `mkdir(parents=True)`. -/
def ancestorsAndSelf (p : EPath) : List EPath :=
  ((List.range p.components.length).map fun n => EPath.mk p.abs (p.components.take n)) ++ [p]

end EPath

/-- Embedding of `Path.mkdir(parents=True, exist_ok=True)` on the
explicit filesystem: the directory and all its ancestors now exist
(creation is idempotent in the set-of-existing-directories view, so
duplicates in the list are harmless). -/
def mkdirParents (fs : List EPath) (p : EPath) : List EPath :=
  p.ancestorsAndSelf ++ fs

/-- Embedding of `schema.PEP621Configuration` (the input-form PEP 621
model; its fields are those of `schema.PEP621` in src: `dynamic`,
`name`, `version : str | None`, `description`). -/
structure PEP621Configuration where
  dynamic : List String
  name : String
  version : Option String
  description : String
  deriving DecidableEq, Repr

/-- Embedding of `schema.PEP621Data` / `PEP621Resolved`: the resolved
form, with all three fields present. -/
structure PEP621Data where
  name : String
  version : String
  description : String
  deriving DecidableEq, Repr

/-- Embedding of `schema.ProjectConfiguration`: the manifest path, the
externally supplied project version (checked against `None` by
`resolution.resolve_pep621`, hence optional here) and the verbosity. -/
structure ProjectConfiguration where
  pyproject_file : EPath
  version : Option String
  verbosity : Nat
  deriving DecidableEq, Repr

/-- Embedding of an SCM (version-control) plugin instance: the only
operation `resolution.resolve_pep621` uses is `version(directory)`. -/
structure SCM where
  version : EPath → String

/-- Embedding of `resolution.resolve_pep621` (resolution.py lines
39–75): when `"version"` is dynamic the version comes from the external
project version, else from `scm.version(pyproject_file.parent)`, else
the code raises `ValueError("Version can't be resolved. No SCM")`; when
not dynamic the configured literal is used, else the code raises
`ValueError("Version can't be resolved. Schema error")`. -/
def resolve_pep621 (cfg : PEP621Configuration) (proj : ProjectConfiguration)
    (scm : Option SCM) : Except PyError PEP621Data :=
  if "version" ∈ cfg.dynamic then
    match proj.version with
    | some v => .ok ⟨cfg.name, v, cfg.description⟩
    | none =>
      match scm with
      | some s => .ok ⟨cfg.name, s.version proj.pyproject_file.parent, cfg.description⟩
      | none => .error (.valueError "Version can't be resolved. No SCM")
  else
    match cfg.version with
    | some v => .ok ⟨cfg.name, v, cfg.description⟩
    | none => .error (.valueError "Version can't be resolved. Schema error")

/-- Embedding of constructing `schema.PEP621` (schema.py lines 95–124)
through pydantic v1.  The `version` argument distinguishes an omitted
field (`none`, pydantic substitutes the default `None`) from a supplied
one (`some v` with `v : Option String`).  pydantic v1 runs a
`@validator` without `always=True` only when the field is supplied, so
an omitted `version` skips `validate_version` entirely; when it runs,
its failed `assert` surfaces as a pydantic `ValidationError`. -/
def pep621_construct (dynamic : List String) (name : String)
    (version : Option (Option String)) (description : Option String) :
    Except PyError PEP621Configuration :=
  match version with
  | none => .ok ⟨dynamic, name, none, description.getD ""⟩
  | some v =>
    if "version" ∈ dynamic then
      match v with
      | none => .ok ⟨dynamic, name, none, description.getD ""⟩
      | some _ => .error (.validationError "assert value is None")
    else
      match v with
      | some s => .ok ⟨dynamic, name, some s, description.getD ""⟩
      | none => .error (.validationError "assert value is not None")

/-- Test of the embedding against resolution.py's happy path. -/
example :
    resolve_pep621 ⟨[], "test", some "1.0.0", "d"⟩ ⟨⟨true, ["a", "b", "pyproject.toml"]⟩, none, 0⟩ none
      = .ok ⟨"test", "1.0.0", "d"⟩ := rfl

/-- Embedding of `schema.ProjectData`: the resolved project form used by
`resolution.resolve_cppython` (`pyproject_file` plus verbosity). -/
structure ProjectData where
  pyproject_file : EPath
  verbosity : Nat
  deriving DecidableEq, Repr

/-- Embedding of the fields of `schema.CPPythonLocalConfiguration` that
`resolution.resolve_cppython` reads: the three directory paths and the
optional provider/generator plugin names. -/
structure CPPythonLocalConfiguration where
  install_path : EPath
  tool_path : EPath
  build_path : EPath
  provider_name : Option String
  generator_name : Option String
  deriving DecidableEq, Repr

/-- Embedding of the field of `schema.CPPythonGlobalConfiguration` that
`resolution.resolve_cppython` reads. -/
structure CPPythonGlobalConfiguration where
  current_check : Bool
  deriving DecidableEq, Repr

/-- Embedding of `resolution.PluginCPPythonData`: the plugin names
supplied by the host build. -/
structure PluginCPPythonData where
  generator_name : String
  provider_name : String
  scm_name : String
  deriving DecidableEq, Repr

/-- Embedding of the resolved `schema.CPPythonData`, with exactly the
seven fields `resolution.resolve_cppython` constructs. -/
structure CPPythonData where
  install_path : EPath
  tool_path : EPath
  build_path : EPath
  current_check : Bool
  provider_name : String
  generator_name : String
  scm_name : String
  deriving DecidableEq, Repr

/-- Embedding of `resolution.resolve_cppython` (resolution.py lines
94–158): absolutize the three paths against
`pyproject_file.parent.absolute()`, create the three directories, fall
back to the plugin build data for missing provider/generator names and
copy the `current_check` flag.  The filesystem and the current working
directory (used by `Path.absolute()`) are explicit arguments. -/
def resolve_cppython (local_configuration : CPPythonLocalConfiguration)
    (global_configuration : CPPythonGlobalConfiguration) (project_data : ProjectData)
    (plugin_build_data : PluginCPPythonData) (cwd : EPath) (fs : List EPath) :
    CPPythonData × List EPath :=
  let root_directory := EPath.absolute cwd project_data.pyproject_file.parent
  let modified_install_path :=
    if local_configuration.install_path.abs then local_configuration.install_path
    else root_directory.join local_configuration.install_path
  let modified_tool_path :=
    if local_configuration.tool_path.abs then local_configuration.tool_path
    else root_directory.join local_configuration.tool_path
  let modified_build_path :=
    if local_configuration.build_path.abs then local_configuration.build_path
    else root_directory.join local_configuration.build_path
  let fs := mkdirParents fs modified_install_path
  let fs := mkdirParents fs modified_tool_path
  let fs := mkdirParents fs modified_build_path
  let modified_provider_name :=
    match local_configuration.provider_name with
    | none => plugin_build_data.provider_name
    | some n => n
  let modified_generator_name :=
    match local_configuration.generator_name with
    | none => plugin_build_data.generator_name
    | some n => n
  (⟨modified_install_path, modified_tool_path, modified_build_path,
    global_configuration.current_check, modified_provider_name, modified_generator_name,
    plugin_build_data.scm_name⟩, fs)

/-- Embedding of `resolution.resolve_cppython_plugin` (resolution.py
lines 161–186): a copy of the resolved data whose `install_path` gains
the plugin's name component (`plugin_type.name()` is passed as the
string `plugin_name`), with that directory created; every other field is
copied through unchanged. -/
def resolve_cppython_plugin (cppython_data : CPPythonData) (plugin_name : String)
    (fs : List EPath) : CPPythonData × List EPath :=
  let modified_install_path := cppython_data.install_path.child plugin_name
  let fs := mkdirParents fs modified_install_path
  (⟨modified_install_path, cppython_data.tool_path, cppython_data.build_path,
    cppython_data.current_check, cppython_data.provider_name, cppython_data.generator_name,
    cppython_data.scm_name⟩, fs)

/-- Embedding of `schema.CorePluginData`, the bundle handed to every
plugin.  The record itself is declared in a schema iteration not present
under src; its three fields are exactly those `resolution.py`
dereferences (`project_data`, `pep621_data`, `cppython_data`), matching
spec §3. -/
structure CorePluginData where
  project_data : ProjectData
  pep621_data : PEP621Data
  cppython_data : CPPythonData
  deriving DecidableEq, Repr

/-- Embedding of the plugin group data constructed by
`resolution.resolve_generator` / `resolve_provider` / `resolve_scm`: a
root directory and a tool directory.  The three Python classes
(`GeneratorPluginGroupData`, `ProviderPluginGroupData`,
`SCMPluginGroupData`) are field-for-field identical at this layer. -/
structure PluginGroupData where
  root_directory : EPath
  tool_directory : EPath
  deriving DecidableEq, Repr

/-- Embedding of `resolution._write_tool_directory` (resolution.py lines
189–203): `tool_path / "cppython" / directory`, created with parents. -/
def write_tool_directory (core_data : CorePluginData) (directory : EPath)
    (fs : List EPath) : EPath × List EPath :=
  let plugin_directory := (core_data.cppython_data.tool_path.child "cppython").join directory
  (plugin_directory, mkdirParents fs plugin_directory)

/-- Embedding of `resolution.resolve_generator` (resolution.py lines
206–219). -/
def resolve_generator (core_data : CorePluginData) (fs : List EPath) :
    PluginGroupData × List EPath :=
  let root_directory := core_data.project_data.pyproject_file.parent
  let r := write_tool_directory core_data
    ((EPath.mk false ["generators"]).child core_data.cppython_data.generator_name) fs
  (⟨root_directory, r.1⟩, r.2)

/-- Embedding of `resolution.resolve_provider` (resolution.py lines
222–235). -/
def resolve_provider (core_data : CorePluginData) (fs : List EPath) :
    PluginGroupData × List EPath :=
  let root_directory := core_data.project_data.pyproject_file.parent
  let r := write_tool_directory core_data
    ((EPath.mk false ["providers"]).child core_data.cppython_data.provider_name) fs
  (⟨root_directory, r.1⟩, r.2)

/-- Embedding of `resolution.resolve_scm` (resolution.py lines
238–251). -/
def resolve_scm (core_data : CorePluginData) (fs : List EPath) :
    PluginGroupData × List EPath :=
  let root_directory := core_data.project_data.pyproject_file.parent
  let r := write_tool_directory core_data
    ((EPath.mk false ["managers"]).child core_data.cppython_data.scm_name) fs
  (⟨root_directory, r.1⟩, r.2)

/-- Case-boundary splitter for plugin type names.  Modelled from the
spec: §4.2's splitting algorithm for `resolve_full_name` — "scan the
identifier for case-transition boundaries (lower→upper, and
run-of-uppercase→mixed, to correctly separate acronyms)".  The function
itself is absent from src (only its unit tests are present).  `cur`
holds the current token's characters in reverse. -/
def camelGo (cur : List Char) : List Char → List (List Char)
  | [] => [cur.reverse]
  | c :: cs =>
    if c.isUpper then
      if (cur.head?.map Char.isLower).getD false then
        cur.reverse :: camelGo [c] cs
      else
        camelGo (c :: cur) cs
    else
      match cur with
      | p :: q :: rest =>
        if p.isUpper && q.isUpper then
          (q :: rest).reverse :: camelGo [c, p] cs
        else
          camelGo (c :: cur) cs
      | _ => camelGo (c :: cur) cs

/-- Modelled from the spec: the token list produced by §4.2's
case-boundary scan of a plugin type name. -/
def splitTokens (s : String) : List String :=
  match s.data with
  | [] => []
  | c :: cs => (camelGo [c] cs).map fun l => String.mk l

/-- The error message required by spec §4.2 when the split does not
yield exactly two tokens. -/
def pluginNameErrorMsg : String :=
  "Plugin name must be of the NameGroup format"

/-- Embedding of Python's `str.lower()` on the ASCII identifiers the
plugin-name code handles (character-by-character, so that it reduces in
the kernel). -/
def strLower (s : String) : String :=
  String.mk (s.data.map fun c => if c.isUpper then Char.ofNat (c.toNat + 32) else c)

/-- Modelled from the spec: `resolve_full_name` (§4.2) — split the type
name at case boundaries; exactly two tokens resolve to
`"name.group"` lowercased, anything else fails with `PluginError`. -/
def resolve_full_name (s : String) : Except PyError String :=
  match splitTokens s with
  | [a, b] => .ok (strLower a ++ "." ++ strLower b)
  | _ => .error (.pluginError pluginNameErrorMsg)

/-- The `(name, group)` pair derived from a plugin type name
(`test_utility.py` reads `.name` and `.group` off the value returned by
`canonicalize_name`). -/
structure CanonicalizedName where
  name : String
  group : String
  deriving DecidableEq, Repr

/-- Modelled from the spec: `canonicalize_name` / `resolve_name` /
`resolve_group` (§4.2) — the first token is the name, the second the
group, both lowercased; any other token count fails with
`PluginError`. -/
def canonicalize_name (s : String) : Except PyError CanonicalizedName :=
  match splitTokens s with
  | [a, b] => .ok ⟨strLower a, strLower b⟩
  | _ => .error (.pluginError pluginNameErrorMsg)

example : splitTokens "FooGenerator" = ["Foo", "Generator"] := by decide
example : splitTokens "YAAcronym" = ["YA", "Acronym"] := by decide
example : splitTokens "AcronymYA" = ["Acronym", "YA"] := by decide
example : splitTokens "BasicPlugin" = ["Basic", "Plugin"] := by decide
example : splitTokens "Broken" = ["Broken"] := by decide
example : splitTokens "BROKEN" = ["BROKEN"] := by decide
example : resolve_full_name "FooGenerator" = .ok "foo.generator" := by decide

/-- Embedding of the test model `TestSchema.Model` (test_schema.py lines
21–24): one boolean field `aliased_variable` with default `False` and
external alias `"aliased-variable"`. -/
structure AliasedModel where
  aliased_variable : Bool
  deriving DecidableEq, Repr

/-- Embedding of constructing a `CPPythonModel` subclass from a keyword
table under the configuration in schema.py lines 21–32:
`allow_population_by_field_name = False` means only the declared alias
key populates an aliased field, and pydantic v1's default
`Extra.ignore` silently discards any other key — including the
in-memory field name itself.  The field falls back to its default when
the alias key is absent. -/
def aliasedModel_construct (kvs : List (String × Bool)) : AliasedModel :=
  { aliased_variable := (kvs.lookup "aliased-variable").getD false }

/-- Embedding of the C++ build target enum `schema.TargetEnum`. -/
inductive TargetEnum where
  | exe
  | static
  | shared
  deriving DecidableEq, Repr

/-- Embedding of `schema.CPPythonDataResolved` (schema.py lines
250–276): the resolved tool data, `extra=Extra.forbid`, with the
`validate_absolute_path` validator on the three `DirectoryPath`
fields. -/
structure CPPythonDataResolved where
  target : TargetEnum
  dependencies : List String
  install_path : EPath
  tool_path : EPath
  build_path : EPath
  deriving DecidableEq, Repr

/-- Embedding of the assignment `m.install_path = value` on a
`CPPythonDataResolved` instance: the base `CPPythonModel` configuration
(schema.py lines 21–32) sets `validate_assignment = True` and nothing
else, so pydantic v1 re-runs the field's validation on the assigned
value — the `DirectoryPath` type check (the path must exist as a
directory, checked here against the explicit filesystem) and then
`validate_absolute_path` — and on success mutates the field; there is no
immutability setting, so a valid assignment goes through. -/
def assign_install_path (fs : List EPath) (m : CPPythonDataResolved) (value : EPath) :
    Except PyError CPPythonDataResolved :=
  if value ∈ fs then
    if value.abs then
      .ok { m with install_path := value }
    else
      .error (.validationError "Absolute path required")
  else
    .error (.validationError "path does not point to a directory")

theorem mem_mkdirParents_self (fs : List EPath) (p : EPath) : p ∈ mkdirParents fs p := by
  simp [mkdirParents, EPath.ancestorsAndSelf]

theorem mem_mkdirParents_of_mem {q : EPath} (fs : List EPath) (p : EPath) (h : q ∈ fs) :
    q ∈ mkdirParents fs p :=
  List.mem_append_right _ h

/-- The side-effect part of `resolve_cppython` is the directory creation
of the three resolved paths, in order. -/
theorem resolve_cppython_snd_eq (l : CPPythonLocalConfiguration)
    (g : CPPythonGlobalConfiguration) (pd : ProjectData) (pbd : PluginCPPythonData)
    (cwd : EPath) (fs : List EPath) :
    (resolve_cppython l g pd pbd cwd fs).2 =
      mkdirParents
        (mkdirParents (mkdirParents fs (resolve_cppython l g pd pbd cwd fs).1.install_path)
          (resolve_cppython l g pd pbd cwd fs).1.tool_path)
        (resolve_cppython l g pd pbd cwd fs).1.build_path := rfl

/-- All three resolved directories exist in the filesystem returned by
`resolve_cppython`. -/
theorem resolve_cppython_dirs_exist (l : CPPythonLocalConfiguration)
    (g : CPPythonGlobalConfiguration) (pd : ProjectData) (pbd : PluginCPPythonData)
    (cwd : EPath) (fs : List EPath) :
    (resolve_cppython l g pd pbd cwd fs).1.install_path ∈ (resolve_cppython l g pd pbd cwd fs).2 ∧
    (resolve_cppython l g pd pbd cwd fs).1.tool_path ∈ (resolve_cppython l g pd pbd cwd fs).2 ∧
    (resolve_cppython l g pd pbd cwd fs).1.build_path ∈ (resolve_cppython l g pd pbd cwd fs).2 := by
  rw [resolve_cppython_snd_eq]
  exact ⟨mem_mkdirParents_of_mem _ _ (mem_mkdirParents_of_mem _ _ (mem_mkdirParents_self _ _)),
    mem_mkdirParents_of_mem _ _ (mem_mkdirParents_self _ _), mem_mkdirParents_self _ _⟩

/-- C1: with `"version"` dynamic, `resolve_pep621` takes the externally
supplied project version when present, else the SCM's
`version(directory)`, and when neither source is available it raises
`ValueError("Version can't be resolved. No SCM")` — not the `ConfigError`
the claim (and the function's own docstring) promise.  Each conjunct
evaluates the embedded code at a concrete input; the first is the
failing input of the code bug. -/
theorem c1_resolve_pep621_error_class :
    resolve_pep621 ⟨["version"], "dynamic-test", none, ""⟩
        ⟨⟨true, ["a", "b", "pyproject.toml"]⟩, none, 0⟩ none
      = .error (.valueError "Version can't be resolved. No SCM") ∧
    resolve_pep621 ⟨["version"], "dynamic-test", none, ""⟩
        ⟨⟨true, ["a", "b", "pyproject.toml"]⟩, some "1.0.0", 0⟩ none
      = .ok ⟨"dynamic-test", "1.0.0", ""⟩ ∧
    resolve_pep621 ⟨["version"], "dynamic-test", none, ""⟩
        ⟨⟨true, ["a", "b", "pyproject.toml"]⟩, none, 0⟩ (some ⟨fun _ => "2.0.0"⟩)
      = .ok ⟨"dynamic-test", "2.0.0", ""⟩ :=
  ⟨rfl, rfl, rfl⟩

/-- C2: whenever the case-boundary split of a plugin type name yields
exactly two tokens, full-name resolution returns the two tokens
lowercased and joined by one `.`, with the first token the name and the
second the group; in particular `"FooGenerator" ↦ "foo.generator"`,
`"YAAcronym" ↦ "ya.acronym"`, `"AcronymYA" ↦ "acronym.ya"`. -/
theorem c2_full_name_two_tokens :
    (∀ s t₁ t₂ : String, splitTokens s = [t₁, t₂] →
      resolve_full_name s = .ok (strLower t₁ ++ "." ++ strLower t₂) ∧
      canonicalize_name s = .ok ⟨strLower t₁, strLower t₂⟩) ∧
    resolve_full_name "FooGenerator" = .ok "foo.generator" ∧
    resolve_full_name "YAAcronym" = .ok "ya.acronym" ∧
    resolve_full_name "AcronymYA" = .ok "acronym.ya" ∧
    canonicalize_name "FooGenerator" = .ok ⟨"foo", "generator"⟩ := by
  refine ⟨?_, by decide, by decide, by decide, by decide⟩
  intro s t₁ t₂ h
  exact ⟨by simp [resolve_full_name, h], by simp [canonicalize_name, h]⟩

/-- Witness for C2 at the concrete input `"FooGenerator"`. -/
theorem c2_witness :
    splitTokens "FooGenerator" = ["Foo", "Generator"] ∧
    resolve_full_name "FooGenerator" = .ok (strLower "Foo" ++ "." ++ strLower "Generator") := by
  have h : splitTokens "FooGenerator" = ["Foo", "Generator"] := by decide
  exact ⟨h, (c2_full_name_two_tokens.1 "FooGenerator" "Foo" "Generator" h).1⟩

/-- C3: whenever the case-boundary split of a plugin type name does not
yield exactly two tokens — in particular for the single-word name
`"Broken"` and the all-uppercase name `"BROKEN"` — full-name resolution
fails with `PluginError` (not `ValueError`). -/
theorem c3_full_name_plugin_error :
    (∀ s : String, (splitTokens s).length ≠ 2 →
      resolve_full_name s = .error (.pluginError pluginNameErrorMsg) ∧
      canonicalize_name s = .error (.pluginError pluginNameErrorMsg)) ∧
    resolve_full_name "Broken" = .error (.pluginError pluginNameErrorMsg) ∧
    resolve_full_name "BROKEN" = .error (.pluginError pluginNameErrorMsg) := by
  refine ⟨?_, by decide, by decide⟩
  intro s h
  rcases hs : splitTokens s with _ | ⟨a, _ | ⟨b, _ | ⟨c, rest⟩⟩⟩
  · exact ⟨by simp [resolve_full_name, hs], by simp [canonicalize_name, hs]⟩
  · exact ⟨by simp [resolve_full_name, hs], by simp [canonicalize_name, hs]⟩
  · exact absurd (by rw [hs]; rfl) h
  · exact ⟨by simp [resolve_full_name, hs], by simp [canonicalize_name, hs]⟩

/-- Witness for C3 at the concrete input `"Broken"`. -/
theorem c3_witness :
    (splitTokens "Broken").length ≠ 2 ∧
    resolve_full_name "Broken" = .error (.pluginError pluginNameErrorMsg) := by
  have h : (splitTokens "Broken").length ≠ 2 := by decide
  exact ⟨h, (c3_full_name_plugin_error.1 "Broken" h).1⟩

/-- C4: when the configured version is a literal and `"version"` is not
dynamic, `resolve_pep621` returns that literal unchanged (the external
project version is never consulted: the result is the same for every
`proj` and `scm`). -/
theorem c4_literal_version_passthrough (cfg : PEP621Configuration)
    (proj : ProjectConfiguration) (scm : Option SCM) (v : String)
    (hv : cfg.version = some v) (hd : "version" ∉ cfg.dynamic) :
    resolve_pep621 cfg proj scm = .ok ⟨cfg.name, v, cfg.description⟩ := by
  simp [resolve_pep621, hv, hd]

/-- Witness for C4: a literal version `"1.2.3"`, an external project
version `"9.9.9"` that must not be substituted. -/
theorem c4_witness :
    (⟨[], "literal-test", some "1.2.3", "d"⟩ : PEP621Configuration).version = some "1.2.3" ∧
    resolve_pep621 ⟨[], "literal-test", some "1.2.3", "d"⟩
        ⟨⟨true, ["a", "pyproject.toml"]⟩, some "9.9.9", 0⟩ none
      = .ok ⟨"literal-test", "1.2.3", "d"⟩ :=
  ⟨rfl, c4_literal_version_passthrough _ _ none "1.2.3" rfl (by decide)⟩

/-- C5: `resolve_cppython` joins each relative install/tool/build path
to the manifest file's parent directory and each resulting directory
exists afterwards; paths that are already absolute are left
unchanged (and their directories are created too). -/
theorem c5_resolve_cppython_paths :
    (∀ (l : CPPythonLocalConfiguration) (g : CPPythonGlobalConfiguration)
        (pd : ProjectData) (pbd : PluginCPPythonData) (cwd : EPath) (fs : List EPath),
      pd.pyproject_file.abs = true →
      l.install_path.abs = false → l.tool_path.abs = false → l.build_path.abs = false →
      (resolve_cppython l g pd pbd cwd fs).1.install_path
          = pd.pyproject_file.parent.join l.install_path ∧
      (resolve_cppython l g pd pbd cwd fs).1.tool_path
          = pd.pyproject_file.parent.join l.tool_path ∧
      (resolve_cppython l g pd pbd cwd fs).1.build_path
          = pd.pyproject_file.parent.join l.build_path ∧
      (resolve_cppython l g pd pbd cwd fs).1.install_path
          ∈ (resolve_cppython l g pd pbd cwd fs).2 ∧
      (resolve_cppython l g pd pbd cwd fs).1.tool_path
          ∈ (resolve_cppython l g pd pbd cwd fs).2 ∧
      (resolve_cppython l g pd pbd cwd fs).1.build_path
          ∈ (resolve_cppython l g pd pbd cwd fs).2) ∧
    (∀ (l : CPPythonLocalConfiguration) (g : CPPythonGlobalConfiguration)
        (pd : ProjectData) (pbd : PluginCPPythonData) (cwd : EPath) (fs : List EPath),
      l.install_path.abs = true → l.tool_path.abs = true → l.build_path.abs = true →
      (resolve_cppython l g pd pbd cwd fs).1.install_path = l.install_path ∧
      (resolve_cppython l g pd pbd cwd fs).1.tool_path = l.tool_path ∧
      (resolve_cppython l g pd pbd cwd fs).1.build_path = l.build_path ∧
      (resolve_cppython l g pd pbd cwd fs).1.install_path
          ∈ (resolve_cppython l g pd pbd cwd fs).2 ∧
      (resolve_cppython l g pd pbd cwd fs).1.tool_path
          ∈ (resolve_cppython l g pd pbd cwd fs).2 ∧
      (resolve_cppython l g pd pbd cwd fs).1.build_path
          ∈ (resolve_cppython l g pd pbd cwd fs).2) := by
  constructor
  · intro l g pd pbd cwd fs habs h1 h2 h3
    have hd := resolve_cppython_dirs_exist l g pd pbd cwd fs
    have hroot : EPath.absolute cwd pd.pyproject_file.parent = pd.pyproject_file.parent := by
      simp [EPath.absolute, EPath.parent, habs]
    refine ⟨?_, ?_, ?_, hd.1, hd.2.1, hd.2.2⟩ <;>
      simp [resolve_cppython, hroot, h1, h2, h3]
  · intro l g pd pbd cwd fs h1 h2 h3
    have hd := resolve_cppython_dirs_exist l g pd pbd cwd fs
    refine ⟨?_, ?_, ?_, hd.1, hd.2.1, hd.2.2⟩ <;>
      simp [resolve_cppython, h1, h2, h3]

/-- Witness for C5: relative `install-path` of `"out"` with the
manifest at `/a/b/pyproject.toml` resolves to `/a/b/out`, which exists
afterwards. -/
theorem c5_witness :
    (resolve_cppython ⟨⟨false, ["out"]⟩, ⟨false, ["tool"]⟩, ⟨false, ["build"]⟩, none, none⟩
        ⟨true⟩ ⟨⟨true, ["a", "b", "pyproject.toml"]⟩, 0⟩ ⟨"g", "p", "s"⟩ ⟨true, []⟩ []).1.install_path
      = EPath.mk true ["a", "b", "out"] ∧
    ((resolve_cppython ⟨⟨false, ["out"]⟩, ⟨false, ["tool"]⟩, ⟨false, ["build"]⟩, none, none⟩
        ⟨true⟩ ⟨⟨true, ["a", "b", "pyproject.toml"]⟩, 0⟩ ⟨"g", "p", "s"⟩ ⟨true, []⟩ []).1.install_path
        = (EPath.mk true ["a", "b", "pyproject.toml"]).parent.join ⟨false, ["out"]⟩ ∧
      (resolve_cppython ⟨⟨false, ["out"]⟩, ⟨false, ["tool"]⟩, ⟨false, ["build"]⟩, none, none⟩
        ⟨true⟩ ⟨⟨true, ["a", "b", "pyproject.toml"]⟩, 0⟩ ⟨"g", "p", "s"⟩ ⟨true, []⟩ []).1.tool_path
        = (EPath.mk true ["a", "b", "pyproject.toml"]).parent.join ⟨false, ["tool"]⟩ ∧
      (resolve_cppython ⟨⟨false, ["out"]⟩, ⟨false, ["tool"]⟩, ⟨false, ["build"]⟩, none, none⟩
        ⟨true⟩ ⟨⟨true, ["a", "b", "pyproject.toml"]⟩, 0⟩ ⟨"g", "p", "s"⟩ ⟨true, []⟩ []).1.build_path
        = (EPath.mk true ["a", "b", "pyproject.toml"]).parent.join ⟨false, ["build"]⟩ ∧
      (resolve_cppython ⟨⟨false, ["out"]⟩, ⟨false, ["tool"]⟩, ⟨false, ["build"]⟩, none, none⟩
        ⟨true⟩ ⟨⟨true, ["a", "b", "pyproject.toml"]⟩, 0⟩ ⟨"g", "p", "s"⟩ ⟨true, []⟩ []).1.install_path
        ∈ (resolve_cppython ⟨⟨false, ["out"]⟩, ⟨false, ["tool"]⟩, ⟨false, ["build"]⟩, none, none⟩
        ⟨true⟩ ⟨⟨true, ["a", "b", "pyproject.toml"]⟩, 0⟩ ⟨"g", "p", "s"⟩ ⟨true, []⟩ []).2 ∧
      (resolve_cppython ⟨⟨false, ["out"]⟩, ⟨false, ["tool"]⟩, ⟨false, ["build"]⟩, none, none⟩
        ⟨true⟩ ⟨⟨true, ["a", "b", "pyproject.toml"]⟩, 0⟩ ⟨"g", "p", "s"⟩ ⟨true, []⟩ []).1.tool_path
        ∈ (resolve_cppython ⟨⟨false, ["out"]⟩, ⟨false, ["tool"]⟩, ⟨false, ["build"]⟩, none, none⟩
        ⟨true⟩ ⟨⟨true, ["a", "b", "pyproject.toml"]⟩, 0⟩ ⟨"g", "p", "s"⟩ ⟨true, []⟩ []).2 ∧
      (resolve_cppython ⟨⟨false, ["out"]⟩, ⟨false, ["tool"]⟩, ⟨false, ["build"]⟩, none, none⟩
        ⟨true⟩ ⟨⟨true, ["a", "b", "pyproject.toml"]⟩, 0⟩ ⟨"g", "p", "s"⟩ ⟨true, []⟩ []).1.build_path
        ∈ (resolve_cppython ⟨⟨false, ["out"]⟩, ⟨false, ["tool"]⟩, ⟨false, ["build"]⟩, none, none⟩
        ⟨true⟩ ⟨⟨true, ["a", "b", "pyproject.toml"]⟩, 0⟩ ⟨"g", "p", "s"⟩ ⟨true, []⟩ []).2) :=
  ⟨rfl, c5_resolve_cppython_paths.1 ⟨⟨false, ["out"]⟩, ⟨false, ["tool"]⟩, ⟨false, ["build"]⟩, none, none⟩
    ⟨true⟩ ⟨⟨true, ["a", "b", "pyproject.toml"]⟩, 0⟩ ⟨"g", "p", "s"⟩ ⟨true, []⟩ [] rfl rfl rfl rfl⟩

/-- C6: `resolve_cppython_plugin` returns a copy whose `install_path`
is the input `install_path` joined with the plugin's name token, that
directory having been created, and every other field (`tool_path`,
`build_path`, `current_check`, `provider_name`, `generator_name`,
`scm_name`) unchanged. -/
theorem c6_resolve_cppython_plugin_frame (cd : CPPythonData) (n : String) (fs : List EPath) :
    (resolve_cppython_plugin cd n fs).1.install_path = cd.install_path.child n ∧
    (resolve_cppython_plugin cd n fs).1.install_path ∈ (resolve_cppython_plugin cd n fs).2 ∧
    (resolve_cppython_plugin cd n fs).1.tool_path = cd.tool_path ∧
    (resolve_cppython_plugin cd n fs).1.build_path = cd.build_path ∧
    (resolve_cppython_plugin cd n fs).1.current_check = cd.current_check ∧
    (resolve_cppython_plugin cd n fs).1.provider_name = cd.provider_name ∧
    (resolve_cppython_plugin cd n fs).1.generator_name = cd.generator_name ∧
    (resolve_cppython_plugin cd n fs).1.scm_name = cd.scm_name :=
  ⟨rfl, mem_mkdirParents_self _ _, rfl, rfl, rfl, rfl, rfl, rfl⟩

/-- C7: pydantic v1 skips the `version` validator when the field is not
supplied, so `PEP621(name="empty-test")` — no version, `"version"` not
dynamic — constructs successfully with `version=None` instead of
failing validation; the other three construction cases behave as the
claim states (both sources present fails, a lone literal succeeds, a
lone dynamic marker succeeds). -/
theorem c7_pep621_construction :
    pep621_construct [] "empty-test" none none
      = .ok ⟨[], "empty-test", none, ""⟩ ∧
    pep621_construct ["version"] "both-test" (some (some "1.0.0")) none
      = .error (.validationError "assert value is None") ∧
    pep621_construct [] "ok-test" (some (some "1.0.0")) none
      = .ok ⟨[], "ok-test", some "1.0.0", ""⟩ ∧
    pep621_construct ["version"] "dynamic-test" none none
      = .ok ⟨["version"], "dynamic-test", none, ""⟩ :=
  ⟨rfl, by decide, by decide, rfl⟩

/-- C8 counterexample: populating the aliased field by its in-memory
field name does not set it — the key is ignored and the field keeps its
default `false`, exactly as `test_model_construction` asserts. -/
theorem c8_counterexample :
    (aliasedModel_construct [("aliased_variable", true)]).aliased_variable ≠ true := by
  decide

/-- C8 (amended): input-form models accept population only by the
declared external alias; the alias key sets the field, while a key
spelled as the in-memory field name is ignored and the field keeps its
default. -/
theorem c8_alias_only_population (b : Bool) :
    (aliasedModel_construct [("aliased-variable", b)]).aliased_variable = b ∧
    (aliasedModel_construct [("aliased_variable", b)]).aliased_variable = false :=
  ⟨rfl, rfl⟩

/-- C9 counterexample: assigning a valid (absolute, existing) path to
`install_path` on a resolved model succeeds and changes the instance —
it does not fail with `ConfigError`, and the instance is not left
unchanged. -/
theorem c9_counterexample :
    assign_install_path [EPath.mk true ["x"], EPath.mk true ["y"]]
        ⟨TargetEnum.exe, [], EPath.mk true ["x"], EPath.mk true ["t"], EPath.mk true ["b"]⟩
        (EPath.mk true ["y"])
      = .ok ⟨TargetEnum.exe, [], EPath.mk true ["y"], EPath.mk true ["t"], EPath.mk true ["b"]⟩ ∧
    EPath.mk true ["y"] ≠ EPath.mk true ["x"] := by
  exact ⟨by decide, by decide⟩

/-- C9 (amended): resolved-form models validate assignment rather than
forbid it (`validate_assignment = True`): assigning a value that passes
the field's validators succeeds and updates exactly that field, while a
value failing validation (a relative path, or a path that is not an
existing directory) is rejected with a pydantic validation error — not
a `ConfigError`. -/
theorem c9_assignment_validated :
    (∀ (fs : List EPath) (m : CPPythonDataResolved) (v : EPath), v ∈ fs → v.abs = true →
      assign_install_path fs m v = .ok { m with install_path := v }) ∧
    (∀ (fs : List EPath) (m : CPPythonDataResolved) (v : EPath), v ∈ fs → v.abs = false →
      assign_install_path fs m v = .error (.validationError "Absolute path required")) ∧
    (∀ (fs : List EPath) (m : CPPythonDataResolved) (v : EPath), v ∉ fs →
      assign_install_path fs m v = .error (.validationError "path does not point to a directory")) ∧
    (∀ (fs : List EPath) (m m' : CPPythonDataResolved) (v : EPath),
      assign_install_path fs m v = .ok m' →
      m'.install_path = v ∧ m'.target = m.target ∧ m'.dependencies = m.dependencies ∧
      m'.tool_path = m.tool_path ∧ m'.build_path = m.build_path) := by
  refine ⟨?_, ?_, ?_, ?_⟩
  · intro fs m v h1 h2
    simp [assign_install_path, h1, h2]
  · intro fs m v h1 h2
    simp [assign_install_path, h1, h2]
  · intro fs m v h1
    simp [assign_install_path, h1]
  · intro fs m m' v h
    by_cases h1 : v ∈ fs
    · by_cases h2 : v.abs
      · simp [assign_install_path, h1, h2] at h
        exact ⟨by simp [← h], by simp [← h], by simp [← h], by simp [← h], by simp [← h]⟩
      · simp [assign_install_path, h1, h2] at h
    · simp [assign_install_path, h1] at h

/-- Witness for C9's amended theorem: a concrete valid assignment that
succeeds and updates the field. -/
theorem c9_witness :
    assign_install_path [EPath.mk true ["y"]]
        ⟨TargetEnum.exe, [], EPath.mk true ["x"], EPath.mk true ["t"], EPath.mk true ["b"]⟩
        (EPath.mk true ["y"])
      = .ok ⟨TargetEnum.exe, [], EPath.mk true ["y"], EPath.mk true ["t"], EPath.mk true ["b"]⟩ :=
  c9_assignment_validated.1 [EPath.mk true ["y"]]
    ⟨TargetEnum.exe, [], EPath.mk true ["x"], EPath.mk true ["t"], EPath.mk true ["b"]⟩
    (EPath.mk true ["y"]) (by decide) rfl

/-- C10: the three group-data resolvers anchor `root_directory` at the
manifest's parent directory and create
`tool_path/"cppython"/<kind directory>/<plugin name>` as
`tool_directory`, with `"generators"`, `"providers"` and `"managers"`
as the kind directories of generator, provider and SCM
respectively. -/
theorem c10_group_data_resolvers (core : CorePluginData) (fs : List EPath) :
    ((resolve_generator core fs).1.tool_directory
        = ((core.cppython_data.tool_path.child "cppython").child "generators").child
            core.cppython_data.generator_name ∧
      (resolve_generator core fs).1.tool_directory ∈ (resolve_generator core fs).2 ∧
      (resolve_generator core fs).1.root_directory
        = core.project_data.pyproject_file.parent) ∧
    ((resolve_provider core fs).1.tool_directory
        = ((core.cppython_data.tool_path.child "cppython").child "providers").child
            core.cppython_data.provider_name ∧
      (resolve_provider core fs).1.tool_directory ∈ (resolve_provider core fs).2 ∧
      (resolve_provider core fs).1.root_directory
        = core.project_data.pyproject_file.parent) ∧
    ((resolve_scm core fs).1.tool_directory
        = ((core.cppython_data.tool_path.child "cppython").child "managers").child
            core.cppython_data.scm_name ∧
      (resolve_scm core fs).1.tool_directory ∈ (resolve_scm core fs).2 ∧
      (resolve_scm core fs).1.root_directory
        = core.project_data.pyproject_file.parent) := by
  refine ⟨⟨?_, ?_, rfl⟩, ⟨?_, ?_, rfl⟩, ⟨?_, ?_, rfl⟩⟩
  · simp [resolve_generator, write_tool_directory, EPath.join, EPath.child]
  · exact mem_mkdirParents_self _ _
  · simp [resolve_provider, write_tool_directory, EPath.join, EPath.child]
  · exact mem_mkdirParents_self _ _
  · simp [resolve_scm, write_tool_directory, EPath.join, EPath.child]
  · exact mem_mkdirParents_self _ _
